import Mathlib

/-!
Shallow embedding of the aRx reactive-stream runtime pieces exercised by the
specification: the `MultiStream` hot multicast hub (`src/aRx/streams/multi_stream.py`),
the `pipe` operator-chain node (`src/aRx/operations/pipe_op.py`), the one-shot
`Unit` source (`src/src/aRx/observable/unit.py`) and the `Max` operator stream
(`src/aioreactive/operator/interface/max.py`).

Python exceptions are modelled by an explicit `Exc` type and fallible calls by
`Except Exc`.  Cooperative-concurrency fan-out via `asyncio.wait(...,
return_when=ALL_COMPLETED)` is modelled by invoking every member and collecting
each member's outcome (the scheduler runs every task to completion and stores
its exception in the future, so no member outcome interrupts the others); the
`ValueError` that `asyncio.wait` raises on an empty collection of awaitables is
modelled explicitly.  `asyncio.gather` (without `return_exceptions`) runs every
child but propagates only the first exception; later children's exceptions are
retrieved and discarded by its done-callback.
-/

/-- Exceptions, as the hub distinguishes them: `ObserverClosedError` is special-cased
by type; `valueError` models `asyncio.wait`'s rejection of an empty awaitable set;
`typeError` models Python's unorderable-types error; `aggregate` exists so that a
spec-level "aggregate failure containing all encountered errors" is expressible. -/
inductive Exc where
  | observerClosed
  | valueError
  | typeError
  | other (n : Nat)
  | aggregate (l : List Exc)

/-- The hub's `isinstance(exc, ObserverClosedError)` test: a check on the
exception's type (constructor), never on its message. -/
def Exc.isObserverClosed : Exc → Bool
  | .observerClosed => true
  | _ => false

/-- Namespace causality record: kind, identity (participant reference, modelled by a
`Nat` id), action name and an optional link to the upstream cause. -/
inductive Namespace where
  | mk (kind : String) (identity : Nat) (action : String) (previous : Option Namespace)

def Namespace.kind : Namespace → String
  | .mk k _ _ _ => k

def Namespace.identity : Namespace → Nat
  | .mk _ i _ _ => i

def Namespace.action : Namespace → String
  | .mk _ _ a _ => a

def Namespace.previous : Namespace → Option Namespace
  | .mk _ _ _ p => p

/-- `is_root` is derived: true iff `previous` is absent. -/
def Namespace.is_root (ns : Namespace) : Bool :=
  ns.previous.isNone

/-- A member of the hub's observer set, as the fan-out code sees it: its `closed`
flag (read by the `if not obv.closed` filter), and the outcome each of its public
entry points would produce for the delivered event (`Except.error e` models the
coroutine raising `e`, captured in its future by `asyncio.wait`).  `disposeB` is
the outcome of `observe(self, obv).dispose()` for this member. -/
structure ObsM (K : Type) where
  id : Nat
  closed : Bool
  sendB : K → Namespace → Except Exc Unit
  throwB : Exc → Namespace → Except Exc Unit
  disposeB : Except Exc Unit

/-- MultiStream state: the membership set (modelled as a list fixing one iteration
order), the `_disposables` slot (`true` iff a cleanup sweep task is pending) and
the hub's own `closed` flag inherited from the Observer base class (none of the
methods below touch it). -/
structure MSState (K : Type) where
  observers : List (ObsM K)
  disposablesPending : Bool
  closed : Bool

/-- Result of one `_asend` fan-out: the post-state, the list of `asend` invocations
performed (member id paired with the namespace argument passed to it), and the
errors reported to `loop.call_exception_handler`. -/
structure SendResult (K : Type) where
  state : MSState K
  calls : List (Nat × Namespace)
  reported : List Exc

/-- The `for fut in done` loop shared by `_asend` and `_athrow`: each open member's
outcome is inspected; an `ObserverClosedError` is skipped, any other captured
exception is handed to `loop.call_exception_handler`. -/
def fanoutReported {K : Type} (opens : List (ObsM K))
    (outcome : ObsM K → Except Exc Unit) : List Exc :=
  opens.filterMap (fun o =>
    match outcome o with
    | Except.error e => if e.isObserverClosed then none else some e
    | Except.ok _ => none)

/-- `MultiStream._asend(value, namespace)`: returns immediately when the membership
set is empty; otherwise builds `wait(tuple(obv.asend(value, namespace) for obv in
self._observers if not obv.closed))` — `asyncio.wait` raises `ValueError` when the
tuple is empty — awaits all, reports every captured exception that is not an
`ObserverClosedError`, and enqueues a cleanup sweep when none is pending. -/
def msAsend (st : MSState K) (v : K) (ns : Namespace) : Except Exc (SendResult K) :=
  if st.observers.isEmpty then
    Except.ok ⟨st, [], []⟩
  else
    let opens := st.observers.filter (fun o => !o.closed)
    if opens.isEmpty then
      Except.error Exc.valueError
    else
      Except.ok
        ⟨{ st with disposablesPending := true },
         opens.map (fun o => (o.id, ns)),
         fanoutReported opens (fun o => o.sendB v ns)⟩

/-- Result of one `_athrow` fan-out: post-state, `athrow` invocations performed,
reported errors, and the boolean the method returns. -/
structure ThrowResult (K : Type) where
  state : MSState K
  calls : List (Nat × Namespace)
  reported : List Exc
  result : Bool

/-- `MultiStream._athrow(main_exc, namespace)`: same fan-out/report/sweep discipline
as `_asend` when the membership set is non-empty, and in every completed run the
method ends with `return False` — a MultiStream never closes on athrow. -/
def msAthrow (st : MSState K) (mainExc : Exc) (ns : Namespace) :
    Except Exc (ThrowResult K) :=
  if st.observers.isEmpty then
    Except.ok ⟨st, [], [], false⟩
  else
    let opens := st.observers.filter (fun o => !o.closed)
    if opens.isEmpty then
      Except.error Exc.valueError
    else
      Except.ok
        ⟨{ st with disposablesPending := true },
         opens.map (fun o => (o.id, ns)),
         fanoutReported opens (fun o => o.throwB mainExc ns),
         false⟩

/-- Observable steps of `_aclose`: awaiting the pending sweep, and running one
member's `observe(self, observer).dispose()`. -/
inductive CloseEvent where
  | awaitSweep
  | disposeMember (id : Nat)
deriving DecidableEq

structure CloseResult where
  trace : List CloseEvent
  outcome : Except Exc Unit

/-- `asyncio.gather` without `return_exceptions`: every child coroutine runs, but
the gather future takes the first raised exception; exceptions of later children
are retrieved by the done-callback and discarded. -/
def gatherFirstError : List (Except Exc Unit) → Except Exc Unit
  | [] => Except.ok ()
  | Except.ok _ :: rest => gatherFirstError rest
  | Except.error e :: _ => Except.error e

/-- `MultiStream._aclose()`: awaits `self._disposables` when a sweep is pending,
then `gather`s `observe(self, observer).dispose()` over the whole membership set. -/
def msAclose (st : MSState K) : CloseResult :=
  { trace :=
      (if st.disposablesPending then [CloseEvent.awaitSweep] else []) ++
        st.observers.map (fun o => CloseEvent.disposeMember o.id),
    outcome := gatherFirstError (st.observers.map (fun o => o.disposeB)) }

/-- Modelled from the spec: the Observer base class's public `asend` wrapper
(`aRx/observers/observer.py`, not among the provided sources).  Per §4.5 of the
spec, "Every delivery constructs a new Namespace identifying (kind, identity,
action) and linking to the Namespace passed in by the immediate upstream caller";
the member's `_asend` then runs with that fresh record. -/
def observerAsendNamespace (o : ObsM K) (ns : Namespace) : Namespace :=
  Namespace.mk "observer" o.id "asend" (some ns)

/-- A `pipe` node (`src/aRx/operations/pipe_op.py`): it holds an optional
`previous_pipe` and, through its `observe` base, its own observation (the
attachment of this node's transformer to its upstream observable), identified
here by an id.  `sink` (built by `pipe.__gt__` with `previous_pipe=self`) has the
same enter/exit recursion shape. -/
inductive Pipe where
  | mk (previous : Option Pipe) (obsId : Nat)

def Pipe.previousOf : Pipe → Option Pipe
  | .mk p _ => p

def Pipe.ownId : Pipe → Nat
  | .mk _ i => i

/-- An attach (scope enter) or dispose (scope exit) of one observation. -/
inductive PipeEvent where
  | enter (id : Nat)
  | exit (id : Nat)
deriving DecidableEq

/-- `pipe.__aenter__`: first `await super().__aenter__()` (enter this node's own
observation), then `await self._previous.__aenter__()` when a previous pipe exists. -/
def Pipe.aenter : Pipe → List PipeEvent
  | .mk previous i =>
    PipeEvent.enter i :: (match previous with
      | none => []
      | some p => Pipe.aenter p)

/-- `pipe.__aexit__`: first `await self._previous.__aexit__(...)` when present,
then `await super().__aexit__(...)` (exit this node's own observation). -/
def Pipe.aexit : Pipe → List PipeEvent
  | .mk previous i =>
    (match previous with
      | none => []
      | some p => Pipe.aexit p) ++ [PipeEvent.exit i]

/-- Mirror of one event: an attach seen backwards is a dispose. -/
def PipeEvent.flip : PipeEvent → PipeEvent
  | .enter i => .exit i
  | .exit i => .enter i

/-- The value a `Unit` source holds: a plain value, or a future whose await
yields a value or raises (`isfuture(value)` branch of `Unit._worker`). -/
inductive UnitValue (K : Type) where
  | plain (v : K)
  | future (r : Except Exc K)

/-- The observer a `Unit._worker` delivers to: its `keep_alive` flag, the
outcome each delivery call would produce, and the `closed` flag as the worker
reads it after the delivery awaits (it may have changed during the await). -/
structure UObserver (K : Type) where
  keep_alive : Bool
  closedAfterDelivery : Bool
  sendB : K → Except Exc Unit
  raiseB : Exc → Except Exc Unit

/-- One call `Unit._worker` makes on the observer, with the namespace argument it
passed (`none` when the call site passes no namespace).  `Unit`'s namespace is a
`uuid4()`, modelled by a `Nat`. -/
inductive UnitEvent (K : Type) where
  | asend (v : K) (ns : Option Nat)
  | araise (e : Exc) (ns : Option Nat)
  | aclose

structure UnitWorkerResult (K : Type) where
  events : List (UnitEvent K)
  outcome : Except Exc Unit

/-- `Unit._worker(value, observer, namespace)`: awaits a future value (delivering
`araise(ex, namespace)` on failure, `asend(value)` — no namespace argument — on
success), sends a plain value via `asend(value)`, then
`if not (observer.closed or observer.keep_alive): await observer.aclose()`.
A delivery call that itself raises propagates out of the worker before the
close check runs. -/
def unitWorker (value : UnitValue K) (obs : UObserver K) (ns : Nat) :
    UnitWorkerResult K :=
  let closeTail : List (UnitEvent K) :=
    if !(obs.closedAfterDelivery || obs.keep_alive) then [UnitEvent.aclose] else []
  match value with
  | .plain v =>
    match obs.sendB v with
    | Except.error e => ⟨[UnitEvent.asend v none], Except.error e⟩
    | Except.ok _ => ⟨UnitEvent.asend v none :: closeTail, Except.ok ()⟩
  | .future (Except.ok v) =>
    match obs.sendB v with
    | Except.error e => ⟨[UnitEvent.asend v none], Except.error e⟩
    | Except.ok _ => ⟨UnitEvent.asend v none :: closeTail, Except.ok ()⟩
  | .future (Except.error ex) =>
    match obs.raiseB ex with
    | Except.error e => ⟨[UnitEvent.araise ex (some ns)], Except.error e⟩
    | Except.ok _ => ⟨UnitEvent.araise ex (some ns) :: closeTail, Except.ok ()⟩

/-- Python values relevant to `Max.Stream`: `None` plus the value types named by
the claim (int, float — modelled as exact rationals, the `TypeError` at issue
fires before any numeric comparison — and str). -/
inductive PyVal where
  | none
  | int (n : Int)
  | float (q : Rat)
  | str (s : String)

/-- Python 3 `a > b`: numbers compare with numbers, strings with strings
(lexicographically); every other pairing — in particular any ordered comparison
with `None` — raises `TypeError`. -/
def pyGT : PyVal → PyVal → Except Exc Bool
  | .int a, .int b => Except.ok (decide (b < a))
  | .int a, .float b => Except.ok (decide (b < (a : Rat)))
  | .float a, .int b => Except.ok (decide ((b : Rat) < a))
  | .float a, .float b => Except.ok (decide (b < a))
  | .str a, .str b => Except.ok (decide (b < a))
  | _, _ => Except.error Exc.typeError

/-- `Max.Stream.__init__`: `self._max = None`. -/
def maxInit : PyVal := PyVal.none

/-- Outcome of one `Max.Stream.__asend__` call: the stored `_max` afterwards and
the exception it raised, if any. -/
structure MaxStep where
  state : PyVal
  raised : Option Exc

/-- `Max.Stream.__asend__(value)`: `if value > self._max: self._max = value`.
When the comparison raises, the exception propagates and `_max` is untouched. -/
def maxAsend (st : PyVal) (value : PyVal) : MaxStep :=
  match pyGT value st with
  | Except.error e => ⟨st, some e⟩
  | Except.ok true => ⟨value, none⟩
  | Except.ok false => ⟨st, none⟩

/-! ## Helper lemmas -/

theorem Exc.isObserverClosed_eq_true {e : Exc} :
    e.isObserverClosed = true ↔ e = Exc.observerClosed := by
  cases e <;> simp [Exc.isObserverClosed]

theorem mem_fanoutReported_iff {K : Type} (opens : List (ObsM K))
    (outcome : ObsM K → Except Exc Unit) (e : Exc) :
    e ∈ fanoutReported opens outcome ↔
      e ≠ Exc.observerClosed ∧ ∃ o ∈ opens, outcome o = Except.error e := by
  rw [fanoutReported, List.mem_filterMap]
  constructor
  · rintro ⟨o, hm, ho⟩
    cases hout : outcome o with
    | ok u => rw [hout] at ho; simp at ho
    | error e2 =>
      rw [hout] at ho
      by_cases hc : e2.isObserverClosed = true
      · simp [hc] at ho
      · simp only [hc, if_false, Bool.false_eq_true, Option.some.injEq] at ho
        subst ho
        exact ⟨fun h => hc (Exc.isObserverClosed_eq_true.mpr h), o, hm, hout⟩
  · rintro ⟨hce, o, hm, hout⟩
    refine ⟨o, hm, ?_⟩
    rw [hout]
    show (if e.isObserverClosed = true then none else some e) = some e
    rw [if_neg]
    intro h
    exact hce (Exc.isObserverClosed_eq_true.mp h)

theorem isEmpty_false_of_ne_nil {α : Type} {l : List α} (h : l ≠ []) :
    l.isEmpty = false := by
  cases l with
  | nil => exact absurd rfl h
  | cons a t => rfl

/-- Reduction of `_asend` on a membership set with at least one open member. -/
theorem msAsend_eq_of_open {K : Type} (st : MSState K) (v : K) (ns : Namespace)
    (h2 : (st.observers.filter fun o => !o.closed) ≠ []) :
    msAsend st v ns = Except.ok
      ⟨{ st with disposablesPending := true },
       (st.observers.filter fun o => !o.closed).map (fun o => (o.id, ns)),
       fanoutReported (st.observers.filter fun o => !o.closed)
         (fun o => o.sendB v ns)⟩ := by
  have h1 : st.observers ≠ [] := by
    intro h
    rw [h] at h2
    exact h2 rfl
  rw [msAsend]
  rw [if_neg (by rw [isEmpty_false_of_ne_nil h1]; simp)]
  rw [if_neg (by rw [isEmpty_false_of_ne_nil h2]; simp)]

/-- Reduction of `_athrow` on a membership set with at least one open member. -/
theorem msAthrow_eq_of_open {K : Type} (st : MSState K) (mainExc : Exc) (ns : Namespace)
    (h2 : (st.observers.filter fun o => !o.closed) ≠ []) :
    msAthrow st mainExc ns = Except.ok
      ⟨{ st with disposablesPending := true },
       (st.observers.filter fun o => !o.closed).map (fun o => (o.id, ns)),
       fanoutReported (st.observers.filter fun o => !o.closed)
         (fun o => o.throwB mainExc ns),
       false⟩ := by
  have h1 : st.observers ≠ [] := by
    intro h
    rw [h] at h2
    exact h2 rfl
  rw [msAthrow]
  rw [if_neg (by rw [isEmpty_false_of_ne_nil h1]; simp)]
  rw [if_neg (by rw [isEmpty_false_of_ne_nil h2]; simp)]

theorem filter_open_ne_nil {K : Type} {st : MSState K}
    (hopen : ∃ o ∈ st.observers, o.closed = false) :
    (st.observers.filter fun o => !o.closed) ≠ [] := by
  obtain ⟨o, hm, hc⟩ := hopen
  exact List.ne_nil_of_mem (List.mem_filter.mpr ⟨hm, by rw [hc]; rfl⟩)

/-! ## Concrete fixtures -/

/-- A member whose `closed` flag is already true at fan-out time. -/
def obsClosed1 : ObsM Nat :=
  ⟨1, true, fun _ _ => Except.ok (), fun _ _ => Except.ok (), Except.ok ()⟩

/-- An open member that accepts every event. -/
def obsOpen1 : ObsM Nat :=
  ⟨1, false, fun _ _ => Except.ok (), fun _ _ => Except.ok (), Except.ok ()⟩

/-- An open member whose delivery raises an application error. -/
def obsRaise2 : ObsM Nat :=
  ⟨2, false, fun _ _ => Except.error (Exc.other 2), fun _ _ => Except.error (Exc.other 2),
   Except.ok ()⟩

/-- An open member whose delivery raises `ObserverClosedError` (it closed during
the race between the `closed` check and the delivery). -/
def obsRacyClosed3 : ObsM Nat :=
  ⟨3, false, fun _ _ => Except.error Exc.observerClosed,
   fun _ _ => Except.error Exc.observerClosed, Except.ok ()⟩

/-- A root namespace, as the originating producer would create it. -/
def nsRoot : Namespace := Namespace.mk "stream" 0 "asend" none

/-! ## C3 — hot drop on empty membership -/

/-- C3: for a MultiStream whose attached-observer set is empty, `_asend` of any
value and any namespace returns immediately and successfully — no observer
invocation, no reported or raised error, and the hub state (membership,
pending-sweep slot, closed flag) is unchanged. -/
theorem multiStream_asend_hot_drop {K : Type} (st : MSState K) (v : K) (ns : Namespace)
    (h : st.observers = []) :
    msAsend st v ns = Except.ok ⟨st, [], []⟩ := by
  rw [msAsend, if_pos]
  rw [h]
  rfl

theorem multiStream_asend_hot_drop_witness :
    msAsend (K := Nat) ⟨[], false, false⟩ 5 nsRoot
      = Except.ok ⟨⟨[], false, false⟩, [], []⟩ :=
  multiStream_asend_hot_drop ⟨[], false, false⟩ 5 nsRoot rfl

/-! ## C2 — `_athrow` never closes the hub -/

/-- C2 counterexample: with a non-empty membership set whose members are all
closed (one observer that closed but has not yet been swept), `_athrow` does not
complete and return `False`: `asyncio.wait` receives an empty tuple of
awaitables and a `ValueError` propagates to the caller. -/
theorem multiStream_athrow_all_closed_counterexample :
    msAthrow (K := Nat) ⟨[obsClosed1], false, false⟩ (Exc.other 7) nsRoot
      = Except.error Exc.valueError := rfl

/-- C2 (amended): `_athrow` never closes the hub — whenever it completes it
returns `False` and leaves the hub's `closed` flag and membership unchanged, and
with an empty observer set it completes without error; the one exception to
completion is a non-empty membership set whose members are all closed, where the
underlying `asyncio.wait` call raises `ValueError` (the hub is still not
closed, since the method never touches the closed flag). -/
theorem multiStream_athrow_never_closes {K : Type} (st : MSState K) (mainExc : Exc)
    (ns : Namespace) :
    (∀ r, msAthrow st mainExc ns = Except.ok r →
      r.result = false ∧ r.state.closed = st.closed ∧ r.state.observers = st.observers) ∧
    (∀ e, msAthrow st mainExc ns = Except.error e → e = Exc.valueError) ∧
    (st.observers = [] → msAthrow st mainExc ns = Except.ok ⟨st, [], [], false⟩) := by
  refine ⟨?_, ?_, ?_⟩
  · intro r hr
    rw [msAthrow] at hr
    by_cases h1 : st.observers.isEmpty
    · rw [if_pos h1] at hr
      cases hr
      exact ⟨rfl, rfl, rfl⟩
    · rw [if_neg h1] at hr
      by_cases h2 : (st.observers.filter fun o => !o.closed).isEmpty
      · rw [if_pos h2] at hr
        exact Except.noConfusion hr
      · rw [if_neg h2] at hr
        cases hr
        exact ⟨rfl, rfl, rfl⟩
  · intro e he
    rw [msAthrow] at he
    by_cases h1 : st.observers.isEmpty
    · rw [if_pos h1] at he
      exact Except.noConfusion he
    · rw [if_neg h1] at he
      by_cases h2 : (st.observers.filter fun o => !o.closed).isEmpty
      · rw [if_pos h2] at he
        exact (Except.error.inj he).symm
      · rw [if_neg h2] at he
        exact Except.noConfusion he
  · intro h
    rw [msAthrow, if_pos]
    rw [h]
    rfl

theorem multiStream_athrow_never_closes_witness :
    msAthrow (K := Nat) ⟨[], false, true⟩ (Exc.other 7) nsRoot
      = Except.ok ⟨⟨[], false, true⟩, [], [], false⟩ :=
  (multiStream_athrow_never_closes ⟨[], false, true⟩ (Exc.other 7) nsRoot).2.2 rfl

/-! ## C1 — fan-out isolation of per-member failures -/

/-- C1: during a `_asend` or `_athrow` fan-out over a membership set with at
least one open member, the call completes without raising to the producer;
every open member is invoked regardless of how the other members' deliveries
end; no `ObserverClosedError` is ever reported to the loop exception handler;
and every other per-member exception is reported there. -/
theorem multiStream_fanout_isolation {K : Type} (st : MSState K) (v : K)
    (mainExc : Exc) (ns : Namespace)
    (hopen : ∃ o ∈ st.observers, o.closed = false) :
    (∃ r, msAsend st v ns = Except.ok r ∧
      Exc.observerClosed ∉ r.reported ∧
      (∀ o ∈ st.observers, o.closed = false → (o.id, ns) ∈ r.calls) ∧
      (∀ o ∈ st.observers, o.closed = false →
        ∀ e, o.sendB v ns = Except.error e → e ≠ Exc.observerClosed →
          e ∈ r.reported)) ∧
    (∃ r, msAthrow st mainExc ns = Except.ok r ∧
      Exc.observerClosed ∉ r.reported ∧
      (∀ o ∈ st.observers, o.closed = false → (o.id, ns) ∈ r.calls) ∧
      (∀ o ∈ st.observers, o.closed = false →
        ∀ e, o.throwB mainExc ns = Except.error e → e ≠ Exc.observerClosed →
          e ∈ r.reported)) := by
  have h2 := filter_open_ne_nil hopen
  constructor
  · refine ⟨_, msAsend_eq_of_open st v ns h2, ?_, ?_, ?_⟩
    · intro h
      exact ((mem_fanoutReported_iff _ _ _).mp h).1 rfl
    · intro o hm hc
      exact List.mem_map.mpr ⟨o, List.mem_filter.mpr ⟨hm, by rw [hc]; rfl⟩, rfl⟩
    · intro o hm hc e he hne
      exact (mem_fanoutReported_iff _ _ _).mpr
        ⟨hne, o, List.mem_filter.mpr ⟨hm, by rw [hc]; rfl⟩, he⟩
  · refine ⟨_, msAthrow_eq_of_open st mainExc ns h2, ?_, ?_, ?_⟩
    · intro h
      exact ((mem_fanoutReported_iff _ _ _).mp h).1 rfl
    · intro o hm hc
      exact List.mem_map.mpr ⟨o, List.mem_filter.mpr ⟨hm, by rw [hc]; rfl⟩, rfl⟩
    · intro o hm hc e he hne
      exact (mem_fanoutReported_iff _ _ _).mpr
        ⟨hne, o, List.mem_filter.mpr ⟨hm, by rw [hc]; rfl⟩, he⟩

theorem multiStream_fanout_isolation_witness :
    (∃ o ∈ (⟨[obsOpen1, obsRaise2, obsRacyClosed3], false, false⟩ : MSState Nat).observers,
      o.closed = false) ∧
    (∃ r, msAsend (K := Nat) ⟨[obsOpen1, obsRaise2, obsRacyClosed3], false, false⟩ 5 nsRoot
        = Except.ok r ∧
      Exc.observerClosed ∉ r.reported ∧
      (∀ o ∈ (⟨[obsOpen1, obsRaise2, obsRacyClosed3], false, false⟩ : MSState Nat).observers,
        o.closed = false → (o.id, nsRoot) ∈ r.calls) ∧
      (∀ o ∈ (⟨[obsOpen1, obsRaise2, obsRacyClosed3], false, false⟩ : MSState Nat).observers,
        o.closed = false →
        ∀ e, o.sendB 5 nsRoot = Except.error e → e ≠ Exc.observerClosed →
          e ∈ r.reported)) :=
  ⟨⟨obsOpen1, by simp, rfl⟩,
   (multiStream_fanout_isolation ⟨[obsOpen1, obsRaise2, obsRacyClosed3], false, false⟩
      5 (Exc.other 7) nsRoot ⟨obsOpen1, by simp, rfl⟩).1⟩

/-! ## C4 — namespace argument of the fan-out deliveries -/

/-- C4 counterexample: in a fan-out to one open member, the hub invokes the
member's `asend` with the caller's namespace itself — a root record, not a fresh
member-specific Namespace chained to the caller's namespace (the hub builds no
Namespace at all). -/
theorem multiStream_asend_namespace_counterexample :
    msAsend (K := Nat) ⟨[obsOpen1], false, false⟩ 5 nsRoot
        = Except.ok ⟨⟨[obsOpen1], true, false⟩, [(1, nsRoot)], []⟩
      ∧ Namespace.previous nsRoot ≠ some nsRoot := by
  refine ⟨rfl, ?_⟩
  intro h
  exact Option.noConfusion h

/-- C4 (amended): in a `_asend` fan-out over a set with at least one open member,
the hub passes the caller's namespace argument unchanged to every open member's
public `asend`; the fresh member-specific Namespace chained to that namespace is
built not by the hub but by each member's `asend` wrapper (per the spec's
Observer contract, §4.5), whose record carries the member's identity and links
back to the caller's namespace. -/
theorem multiStream_asend_namespace_flow {K : Type} (st : MSState K) (v : K)
    (ns : Namespace) (hopen : ∃ o ∈ st.observers, o.closed = false) :
    ∃ r, msAsend st v ns = Except.ok r ∧
      r.calls = (st.observers.filter fun o => !o.closed).map (fun o => (o.id, ns)) ∧
      ∀ o ∈ st.observers,
        (observerAsendNamespace o ns).previous = some ns ∧
        (observerAsendNamespace o ns).identity = o.id ∧
        (observerAsendNamespace o ns).is_root = false := by
  refine ⟨_, msAsend_eq_of_open st v ns (filter_open_ne_nil hopen), rfl, ?_⟩
  intro o _
  exact ⟨rfl, rfl, rfl⟩

theorem multiStream_asend_namespace_flow_witness :
    ∃ r, msAsend (K := Nat) ⟨[obsOpen1], false, false⟩ 5 nsRoot = Except.ok r ∧
      r.calls = (([obsOpen1] : List (ObsM Nat)).filter fun o => !o.closed).map
        (fun o => (o.id, nsRoot)) ∧
      ∀ o ∈ ([obsOpen1] : List (ObsM Nat)),
        (observerAsendNamespace o nsRoot).previous = some nsRoot ∧
        (observerAsendNamespace o nsRoot).identity = o.id ∧
        (observerAsendNamespace o nsRoot).is_root = false :=
  multiStream_asend_namespace_flow ⟨[obsOpen1], false, false⟩ 5 nsRoot
    ⟨obsOpen1, by simp, rfl⟩

/-! ## C5 — `_aclose` and aggregation of disposal failures -/

/-- An open member whose disposal fails with error 1. -/
def obsDisposeFail1 : ObsM Nat :=
  ⟨1, false, fun _ _ => Except.ok (), fun _ _ => Except.ok (),
   Except.error (Exc.other 1)⟩

/-- An open member whose disposal fails with error 2. -/
def obsDisposeFail2 : ObsM Nat :=
  ⟨2, false, fun _ _ => Except.ok (), fun _ _ => Except.ok (),
   Except.error (Exc.other 2)⟩

/-- C5 counterexample: when two members' disposals fail with distinct errors,
`_aclose` surfaces exactly the first error alone — not an aggregate failure
containing both (`asyncio.gather` without `return_exceptions` propagates the
first child's exception and discards the rest). -/
theorem multiStream_aclose_no_aggregate_counterexample :
    (msAclose (K := Nat) ⟨[obsDisposeFail1, obsDisposeFail2], false, false⟩).outcome
        = Except.error (Exc.other 1)
      ∧ (msAclose (K := Nat) ⟨[obsDisposeFail1, obsDisposeFail2], false, false⟩).outcome
        ≠ Except.error (Exc.aggregate [Exc.other 1, Exc.other 2])
      ∧ (msAclose (K := Nat) ⟨[obsDisposeFail1, obsDisposeFail2], false, false⟩).outcome
        ≠ Except.error (Exc.aggregate [Exc.other 2, Exc.other 1]) := by
  refine ⟨rfl, ?_, ?_⟩ <;>
    · intro h
      exact Exc.noConfusion (Except.error.inj h)

/-- Splitting lemma for `gather` without `return_exceptions`: an error outcome is
the first error in the list, every earlier entry having succeeded. -/
theorem gatherFirstError_error_split (l : List (Except Exc Unit)) (e : Exc)
    (h : gatherFirstError l = Except.error e) :
    ∃ l1 l2, l = l1 ++ Except.error e :: l2 ∧ ∀ x ∈ l1, x = Except.ok () := by
  induction l with
  | nil => exact Except.noConfusion h
  | cons x rest ih =>
    cases x with
    | ok u =>
      rw [gatherFirstError] at h
      obtain ⟨l1, l2, hl, hok⟩ := ih h
      refine ⟨Except.ok () :: l1, l2, ?_, ?_⟩
      · rw [hl]; rfl
      · intro y hy
        rcases List.mem_cons.mp hy with h1 | h1
        · exact h1
        · exact hok y h1
    | error e2 =>
      rw [gatherFirstError] at h
      cases Except.error.inj h
      exact ⟨[], rest, rfl, by intro y hy; exact absurd hy (List.not_mem_nil y)⟩

/-- C5 (amended): `_aclose` first awaits any in-flight cleanup sweep, then runs
every remaining member's disposal — every member's disposal is attempted even
when earlier disposals fail, and when all succeed the call succeeds — but when
disposals fail only the first encountered error is surfaced: the outcome is the
error of the first failing disposal, every disposal before it having succeeded,
and later errors are discarded rather than aggregated. -/
theorem multiStream_aclose_first_error_only {K : Type} (st : MSState K) :
    (st.disposablesPending = true →
      (msAclose st).trace.head? = some CloseEvent.awaitSweep) ∧
    (∀ o ∈ st.observers, CloseEvent.disposeMember o.id ∈ (msAclose st).trace) ∧
    ((∀ o ∈ st.observers, o.disposeB = Except.ok ()) →
      (msAclose st).outcome = Except.ok ()) ∧
    (∀ e, (msAclose st).outcome = Except.error e →
      ∃ l1 l2, st.observers.map (fun o => o.disposeB)
          = l1 ++ Except.error e :: l2 ∧ ∀ x ∈ l1, x = Except.ok ()) := by
  refine ⟨?_, ?_, ?_, ?_⟩
  · intro h
    rw [msAclose]
    rw [h]
    rfl
  · intro o hm
    rw [msAclose]
    exact List.mem_append.mpr (Or.inr (List.mem_map.mpr ⟨o, hm, rfl⟩))
  · intro hok
    rw [msAclose]
    show gatherFirstError _ = Except.ok ()
    have : ∀ (l : List (ObsM K)), (∀ o ∈ l, o.disposeB = Except.ok ()) →
        gatherFirstError (l.map (fun o => o.disposeB)) = Except.ok () := by
      intro l
      induction l with
      | nil => intro _; rfl
      | cons o rest ih =>
        intro hall
        rw [List.map_cons, hall o (List.mem_cons_self o rest), gatherFirstError]
        exact ih (fun o2 hm2 => hall o2 (List.mem_cons_of_mem o hm2))
    exact this st.observers hok
  · intro e he
    exact gatherFirstError_error_split _ e he

theorem multiStream_aclose_first_error_only_witness :
    (msAclose (K := Nat) ⟨[obsDisposeFail1, obsDisposeFail2], true, false⟩).trace.head?
        = some CloseEvent.awaitSweep
      ∧ ∃ l1 l2, ([obsDisposeFail1, obsDisposeFail2].map (fun o => o.disposeB))
          = l1 ++ Except.error (Exc.other 1) :: l2 ∧ ∀ x ∈ l1, x = Except.ok () :=
  ⟨(multiStream_aclose_first_error_only ⟨[obsDisposeFail1, obsDisposeFail2], true, false⟩).1
      rfl,
   (multiStream_aclose_first_error_only
      ⟨[obsDisposeFail1, obsDisposeFail2], true, false⟩).2.2.2 (Exc.other 1) rfl⟩

/-! ## C6 — pipe enter/exit recursion order -/

/-- Exit is the event-wise mirror of enter: helper by structural recursion. -/
theorem pipe_aexit_eq_flip_reverse :
    ∀ p : Pipe, Pipe.aexit p = ((Pipe.aenter p).map PipeEvent.flip).reverse
  | .mk none i => rfl
  | .mk (some p) i => by
    have ih := pipe_aexit_eq_flip_reverse p
    show Pipe.aexit p ++ [PipeEvent.exit i]
      = ((PipeEvent.enter i :: Pipe.aenter p).map PipeEvent.flip).reverse
    rw [List.map_cons, List.reverse_cons, ih]
    rfl

/-- C6: entering a pipe node first enters its own observation and then
recursively enters its `previous_pipe` when present (so the node's own enter
event heads the trace); exiting is the mirror — the previous chain's exit events
all come first and the node's own exit event is last; globally, the exit trace
is the reversed, flipped enter trace. -/
theorem pipe_enter_exit_order (p : Pipe) :
    (Pipe.aenter p).head? = some (PipeEvent.enter p.ownId) ∧
    (Pipe.aexit p).getLast? = some (PipeEvent.exit p.ownId) ∧
    Pipe.aenter p = PipeEvent.enter p.ownId :: (p.previousOf).elim [] Pipe.aenter ∧
    Pipe.aexit p = (p.previousOf).elim [] Pipe.aexit ++ [PipeEvent.exit p.ownId] ∧
    Pipe.aexit p = ((Pipe.aenter p).map PipeEvent.flip).reverse := by
  obtain ⟨prev, i⟩ := p
  refine ⟨?_, ?_, ?_, ?_, pipe_aexit_eq_flip_reverse _⟩
  · cases prev <;> rfl
  · cases prev with
    | none => rfl
    | some q =>
      show (Pipe.aexit q ++ [PipeEvent.exit i]).getLast? = some (PipeEvent.exit i)
      rw [List.getLast?_concat]
  · cases prev <;> rfl
  · cases prev <;> rfl

/-! ## C7 — teardown order of a three-stage chain -/

/-- The chain source → T1 → T2 → terminal: observation 0 attaches T1 to the
source, observation 1 attaches T2 to T1, observation 2 attaches the terminal
observer to T2; each later node holds the earlier one as `previous_pipe`. -/
def chainC7 : Pipe := Pipe.mk (some (Pipe.mk (some (Pipe.mk none 0)) 1)) 2

/-- C7 counterexample: exiting the outermost scope of the three-stage chain
disposes the source's observation (0) first, then T1's (1), then T2's (2) — in
particular T2's observation is NOT disposed before T1's. -/
theorem pipe_teardown_order_counterexample :
    Pipe.aexit chainC7 = [PipeEvent.exit 0, PipeEvent.exit 1, PipeEvent.exit 2]
      ∧ ¬ List.indexOf (PipeEvent.exit 2) (Pipe.aexit chainC7)
          < List.indexOf (PipeEvent.exit 1) (Pipe.aexit chainC7) := by
  refine ⟨rfl, ?_⟩
  decide

/-- C7 (amended): for a chain source → T1 → T2 → terminal built from pipe nodes,
exiting the outermost scope disposes the source's observation before T1's, and
T1's before T2's: upstream observations are torn down before the downstream
stages that depend on them (per the exit recursion, which exits `previous_pipe`
first). -/
theorem pipe_teardown_order (a b c : Nat) :
    Pipe.aexit (Pipe.mk (some (Pipe.mk (some (Pipe.mk none a)) b)) c)
      = [PipeEvent.exit a, PipeEvent.exit b, PipeEvent.exit c] := rfl

/-! ## C8 — `Unit._worker` honors `keep_alive` -/

/-- C8: when `Unit._worker` delivers its single value to the observer and the
delivery succeeds, the worker closes the observer iff the observer is not
already closed and `keep_alive` is false; in particular with `keep_alive` true
no close happens. -/
theorem unit_worker_keep_alive {K : Type} (v : K) (obs : UObserver K) (ns : Nat)
    (hdeliver : obs.sendB v = Except.ok ()) :
    ((obs.keep_alive = true →
      UnitEvent.aclose ∉ (unitWorker (UnitValue.plain v) obs ns).events) ∧
    (UnitEvent.aclose ∈ (unitWorker (UnitValue.plain v) obs ns).events ↔
      obs.closedAfterDelivery = false ∧ obs.keep_alive = false)) ∧
    ((obs.keep_alive = true →
      UnitEvent.aclose ∉ (unitWorker (UnitValue.future (Except.ok v)) obs ns).events) ∧
    (UnitEvent.aclose ∈ (unitWorker (UnitValue.future (Except.ok v)) obs ns).events ↔
      obs.closedAfterDelivery = false ∧ obs.keep_alive = false)) := by
  cases hc : obs.closedAfterDelivery <;> cases hk : obs.keep_alive <;>
    simp [unitWorker, hdeliver, hc, hk]

theorem unit_worker_keep_alive_witness :
    UnitEvent.aclose ∉
      (unitWorker (UnitValue.plain 5)
        (⟨true, false, fun _ => Except.ok (), fun _ => Except.ok ()⟩ : UObserver Nat)
        99).events :=
  (unit_worker_keep_alive 5
    ⟨true, false, fun _ => Except.ok (), fun _ => Except.ok ()⟩ 99 rfl).1.1 rfl

/-! ## C10 — namespace arguments of `Unit._worker`'s calls -/

/-- Check of one observer call made by `Unit._worker`: a value delivery must
carry no namespace argument, an error delivery must carry exactly the Unit's
namespace. -/
def unitEventNamespaceOk (ns : Nat) : UnitEvent K → Bool
  | .asend _ m => m.isNone
  | .araise _ m => m == some ns
  | .aclose => true

/-- C10: in both of its success branches `Unit._worker` invokes `observer.asend`
with only the value — the namespace argument is absent — while its failure
branch passes the Unit's namespace to `observer.araise`; so every call the
worker makes satisfies `unitEventNamespaceOk`: value deliveries carry no
namespace, error deliveries carry exactly the Unit's namespace. -/
theorem unit_worker_namespace_arguments {K : Type} (value : UnitValue K)
    (obs : UObserver K) (ns : Nat) :
    ((unitWorker value obs ns).events.all (unitEventNamespaceOk ns)) = true := by
  cases value with
  | plain v =>
    cases h : obs.sendB v <;>
      cases hc : obs.closedAfterDelivery <;> cases hk : obs.keep_alive <;>
        simp [unitWorker, unitEventNamespaceOk, h, hc, hk]
  | future r =>
    cases r with
    | ok v =>
      cases h : obs.sendB v <;>
        cases hc : obs.closedAfterDelivery <;> cases hk : obs.keep_alive <;>
          simp [unitWorker, unitEventNamespaceOk, h, hc, hk]
    | error ex =>
      cases h : obs.raiseB ex <;>
        cases hc : obs.closedAfterDelivery <;> cases hk : obs.keep_alive <;>
          simp [unitWorker, unitEventNamespaceOk, h, hc, hk]

/-! ## C9 — `Max.Stream`'s first delivery compares against `None` -/

/-- C9: `Max.Stream` initializes its running maximum to `None`, so the first
`__asend__` evaluates `value > None`; for every first value that is an int, a
float or a str the comparison raises `TypeError` and the stored maximum is left
untouched (still `None`). -/
theorem max_first_send_type_error :
    maxInit = PyVal.none ∧
    (∀ n : Int, maxAsend maxInit (PyVal.int n) = ⟨maxInit, some Exc.typeError⟩) ∧
    (∀ q : Rat, maxAsend maxInit (PyVal.float q) = ⟨maxInit, some Exc.typeError⟩) ∧
    (∀ s : String, maxAsend maxInit (PyVal.str s) = ⟨maxInit, some Exc.typeError⟩) :=
  ⟨rfl, fun _ => rfl, fun _ => rfl, fun _ => rfl⟩
